import Mathlib

/-!
Shallow embedding of the mock-aware fetch/dispatch layer of the repository:
`createFetcher` / `shouldUseMockup` (src/libs/createFetcher.ts), the shared
axios instance (src/libs/axios/apiClient.ts), the error-modal registry key
(src/libs/mantine/AppErrorModal.tsx) and the react-query hooks
(src/datas/demo/hooks.ts).

TypeScript optional values (`x?: A`, possibly `undefined`) are embedded as
`Option A` with `none` for absent/undefined.  JavaScript's short-circuit
operators `||` and `??` on such values are embedded by `jsOrString` /
`jsCoalesce` / `jsOrNatOpt`, which reproduce JS truthiness (the empty string
and the number 0 are falsy; `??` only defaults on undefined).  One dispatch
is embedded as a function from the outcome of the single transport call it
performs to a run: either the ordered list of observable events it produces
(cookie mutation, navigation, modal open, promise settlement), or a crash —
the catch block itself throwing, which happens when the error response's
parsed JSON body is `null`, since `error.response?.data.message` only
guards `response`, not `data`.  A crashed run performs no observable event
and never settles the returned promise (the async `callFetch`'s own
rejection is discarded by `setTimeout`).
-/

namespace TemplateTest

/-- src/types/response.ts: the `BaseResponse<T>` envelope `{code, message, data}`. -/
structure BaseResponse (T : Type) where
  code : Int
  message : String
  data : T
  deriving Repr, DecidableEq

/-- src/types/serviceError.ts (shape as constructed in createFetcher.ts and
consumed by AppErrorModal's inner props): a title and a message. -/
structure ServiceError where
  title : String
  message : String
  deriving Repr, DecidableEq

/-- JS `a || b` where `a : string | undefined`: falls through to `b` when `a`
is undefined or the empty string (both falsy). -/
def jsOrString (a : Option String) (b : String) : String :=
  match a with
  | some s => if s = "" then b else s
  | none => b

/-- JS `a ?? b` where `a : string | undefined`: falls through to `b` only when
`a` is undefined (the empty string is kept). -/
def jsCoalesce (a : Option String) (b : String) : String :=
  match a with
  | some s => s
  | none => b

/-- JS `a || b` where `a : number | undefined`: falls through to `b` when `a`
is undefined or 0 (falsy). -/
def jsOrNatOpt (a : Option Nat) (b : Nat) : Nat :=
  match a with
  | some n => if n = 0 then b else n
  | none => b

/-- JS truthiness of `a : boolean | undefined`: true exactly for `true`. -/
def jsTruthy (a : Option Bool) : Bool :=
  match a with
  | some b => b
  | none => false

/-- JS template interpolation of a `string | undefined` value: a defined
string is kept verbatim, undefined prints as "undefined". -/
def jsTemplate (a : Option String) : String :=
  match a with
  | some s => s
  | none => "undefined"

/-- JS object spread for one field: `{...base, ...override}` keeps the
override's field when the override supplies it, else the base's. -/
def jsSpread {α : Type} (base override : Option α) : Option α :=
  match override with
  | some v => some v
  | none => base

/-- src/libs/createFetcher.ts: `FetcherOptions extends AxiosRequestConfig`
with the mock/dialog extensions.  `url`, `method`, `params` and `headers`
stand for the underlying axios request-config fields used by the repo
(params and headers kept as opaque serialized strings). -/
structure FetcherOptions where
  mock : Option Bool := none
  jsonMockup : Option String := none
  delay : Option Nat := none
  timeout : Option Nat := none
  showErrorDialog : Option Bool := none
  url : Option String := none
  method : Option String := none
  params : Option String := none
  headers : Option String := none
  deriving Repr, DecidableEq

/-- src/libs/createFetcher.ts `defaultOptions`. -/
def defaultOptions : FetcherOptions :=
  { mock := some true
    jsonMockup := some ""
    delay := some 0
    timeout := some 0
    showErrorDialog := some true }

/-- createFetcher's merge `{...defaultOptions, ...options}`, field by field. -/
def mergeOptions (options : FetcherOptions) : FetcherOptions :=
  { mock := jsSpread defaultOptions.mock options.mock
    jsonMockup := jsSpread defaultOptions.jsonMockup options.jsonMockup
    delay := jsSpread defaultOptions.delay options.delay
    timeout := jsSpread defaultOptions.timeout options.timeout
    showErrorDialog := jsSpread defaultOptions.showErrorDialog options.showErrorDialog
    url := jsSpread defaultOptions.url options.url
    method := jsSpread defaultOptions.method options.method
    params := jsSpread defaultOptions.params options.params
    headers := jsSpread defaultOptions.headers options.headers }

/-- src/libs/createFetcher.ts `shouldUseMockup`.  `isDev` embeds
`import.meta.env.DEV`; the fixture-path test is the source's strict
comparison `options.jsonMockup === ''`, which is false for an undefined
`jsonMockup`. -/
def shouldUseMockup (isDev : Bool) (options : FetcherOptions) : Bool :=
  if !isDev then false
  else if !(jsTruthy options.mock) then false
  else if options.jsonMockup = some "" then false
  else true

/-- The parsed body of an error response (`error.response.data`): axios
stores whatever the body parsed to, so it can be the JSON literal `null`,
a primitive (string/number/boolean), or an object — object bodies carried
by their possibly-absent string `message` property, the only one the
source reads. -/
inductive ErrBody where
  | null
  | prim
  | obj (message : Option String)
  deriving Repr, DecidableEq

/-- JS property access `data.message` on the parsed body: throws a
TypeError on `null` (`Except.error`), yields undefined on primitives
(auto-boxed, no such property), and reads the field on objects. -/
def jsMessageAccess : ErrBody → Except Unit (Option String)
  | .null => .error ()
  | .prim => .ok none
  | .obj m => .ok m

/-- The axios error's `response` object: HTTP status, possibly-absent
status text, parsed body. -/
structure ErrResponse where
  status : Nat
  statusText : Option String
  data : ErrBody
  deriving Repr, DecidableEq

/-- The value caught by createFetcher's catch block: either an axios error
(`axios.isAxiosError` true) with an optional response and an error message,
or any other thrown value. -/
inductive FetchError where
  | axiosError (response : Option ErrResponse) (message : String)
  | otherError
  deriving Repr, DecidableEq

/-- The generic localized fallback message initialised in the catch block. -/
def fallbackMessage : String := "พบข้อผิดพลาด กรุณาลองใหม่อีกครั้ง"

/-- The catch block's normalization: title from
`error.response?.statusText ?? 'Error'`, message from
`error.response?.data.message || error.message`, with the initial fallbacks
kept for non-axios errors.  The optional chain guards only `response`, not
`data`: when a response is present but its body is JSON `null`, the
`.message` access throws (`Except.error`), aborting the catch block. -/
def normalizeError : FetchError → Except Unit ServiceError
  | .axiosError (some r) message =>
      match jsMessageAccess r.data with
      | .ok bodyMessage =>
          .ok { title := jsCoalesce r.statusText "Error"
                message := jsOrString bodyMessage message }
      | .error u => .error u
  | .axiosError none message => .ok { title := "Error", message := message }
  | .otherError => .ok { title := "Error", message := fallbackMessage }

/-- The catch block's `error.response?.status === 401` test. -/
def isUnauthorized : FetchError → Bool
  | .axiosError (some r) _ => r.status == 401
  | .axiosError none _ => false
  | .otherError => false

/-- src/libs/mantine/AppErrorModal.tsx: the error-modal registry key. -/
def MODAL_APPLICATION_ERROR : String := "applicationError"

/-- Outcome of the single transport call a dispatch performs: axios resolves
with a response whose `data` is the parsed body `T`, or throws. -/
inductive FetchOutcome (T : Type) where
  | success (data : T)
  | failure (error : FetchError)
  deriving Repr, DecidableEq

/-- An observable event of one dispatch, in program order: the cookie
removal, the `window.location.href` navigation, the
`modals.openContextModal` call, and the settlement of the returned
promise. -/
inductive FetchEvent (T : Type) where
  | cookieRemoved (name : String)
  | navigated (href : String)
  | modalOpened (modal : String) (title : String) (message : String)
  | resolved (value : T)
  | rejected (error : ServiceError)
  deriving Repr, DecidableEq

/-- One run of `callFetch`: either it completes, producing its ordered list
of events (ending in a settlement of the returned promise), or it crashes —
an exception thrown inside the catch block escapes the async function
before any side effect, leaving the outer promise unsettled forever (the
async function's own rejection is discarded by `setTimeout`). -/
inductive FetchRun (T : Type) where
  | completed (trace : List (FetchEvent T))
  | crashed
  deriving Repr, DecidableEq

/-- The events a run actually performed: a crashed run performed none — the
throw in the catch block happens at the message extraction, before the 401
handling, the modal and the rejection. -/
def runEvents {T : Type} : FetchRun T → List (FetchEvent T)
  | .completed trace => trace
  | .crashed => []

/-- createFetcher's inner `callFetch`, run on already-merged options: given
the outcome of its one transport call, on success (mock or live alike) it
resolves with `response.data`, the parsed body; on failure it normalizes,
handles 401, optionally opens the modal, and rejects — unless the
normalization's `data.message` access throws, in which case the catch block
aborts and nothing observable happens. -/
def callFetchRun {T : Type} (fetchOptions : FetcherOptions)
    (outcome : FetchOutcome T) : FetchRun T :=
  match outcome with
  | .success d => .completed [.resolved d]
  | .failure error =>
      match normalizeError error with
      | .ok appError =>
          .completed
            ((if isUnauthorized error then
              [.cookieRemoved "SID", .navigated "/login"]
            else []) ++
            (if jsTruthy fetchOptions.showErrorDialog then
              [.modalOpened MODAL_APPLICATION_ERROR appError.title
                appError.message]
            else []) ++
            [.rejected appError])
      | .error _ => .crashed

/-- One dispatch through `createFetcher`: merge the caller's options over the
defaults, then run `callFetch`. -/
def createFetcherRun {T : Type} (isDev : Bool) (options : FetcherOptions)
    (outcome : FetchOutcome T) : FetchRun T :=
  let _ := isDev
  callFetchRun (mergeOptions options) outcome

/-- The duration handed to `setTimeout`, from the source line
`setTimeout(() => callFetch(), fetchOptions.delay || 0 * 1000)`: by JS
precedence this parses as `fetchOptions.delay || (0 * 1000)`. -/
def scheduledDelay (options : FetcherOptions) : Nat :=
  jsOrNatOpt (mergeOptions options).delay (0 * 1000)

/-- The single request a dispatch issues through the shared client: the mock
branch runs `httpClient.get(`${fetchOptions.jsonMockup}`)`, the live branch
runs `httpClient.request(fetchOptions)` with the full merged config. -/
inductive IssuedRequest where
  | get (url : String)
  | request (config : FetcherOptions)
  deriving Repr, DecidableEq

/-- Which request createFetcher issues for given options. -/
def issuedRequest (isDev : Bool) (options : FetcherOptions) : IssuedRequest :=
  let fetchOptions := mergeOptions options
  if shouldUseMockup isDev fetchOptions then
    .get (jsTemplate fetchOptions.jsonMockup)
  else
    .request fetchOptions

/-- src/libs/axios/apiClient.ts: the shared axios instance's construction-time
configuration — base URL from `VITE_API_URL`, 60s timeout, and the
`Authorization: Bearer ${getCookie('SID')}` header computed once. -/
structure HttpClientConfig where
  baseURL : Option String
  timeout : Nat
  authorizationHeader : String
  deriving Repr, DecidableEq

/-- `axios.create({...})` in apiClient.ts, applied to the environment's API
URL and the SID cookie value read at construction time. -/
def httpClient (apiUrl : Option String) (sidAtConstruction : Option String) :
    HttpClientConfig :=
  { baseURL := apiUrl
    timeout := 60000
    authorizationHeader := "Bearer " ++ jsTemplate sidAtConstruction }

/-- The Authorization header a request carries when sent through the shared
instance: both `httpClient.get` and `httpClient.request` inherit the
instance's construction-time header (the repo never overrides it). -/
def sentAuthorizationHeader (client : HttpClientConfig) :
    IssuedRequest → String
  | .get _ => client.authorizationHeader
  | .request _ => client.authorizationHeader

/-- src/datas/demo/types.ts (shape as used by Query.tsx, Form.tsx and the
services): a demo item `{id, name}`. -/
structure DemoItem where
  id : Int
  name : String
  deriving Repr, DecidableEq

/-- src/datas/demo/types.ts (shape as used by `useDemoList({ limit: 10 })`):
the demo list request parameters. -/
structure RequestDemoList where
  limit : Nat
  deriving Repr, DecidableEq

/-- src/datas/demo/services.ts `fetchDemoList`: the options it passes to
`createFetcher` (params serialized opaquely). -/
def fetchDemoListOptions (params : String) : FetcherOptions :=
  { url := some "/api/demo/list"
    jsonMockup := some "/apiMockup/demo/list.json"
    delay := some 3000
    params := some params }

/-- A component of a react-query query key, as used by the demo hooks:
`['demoList', params]` mixes a resource-name string and a parameter
object. -/
inductive QueryKeyPart where
  | name (s : String)
  | args (p : RequestDemoList)
  deriving Repr, DecidableEq

/-- src/datas/demo/hooks.ts `useDemoList`'s `queryKey: ['demoList', params]`. -/
def useDemoListQueryKey (params : RequestDemoList) : List QueryKeyPart :=
  [.name "demoList", .args params]

/-- src/datas/demo/hooks.ts `useDemoList`'s `select: (data) => data.data`,
applied to the envelope the dispatch resolved with. -/
def useDemoListSelect {T : Type} (data : BaseResponse T) : T :=
  data.data

/-- One entry of the react-query cache: its key and whether it has been
marked stale (invalidated). -/
structure CacheEntry where
  key : List QueryKeyPart
  stale : Bool
  deriving Repr, DecidableEq

/-- @tanstack/react-query `queryClient.invalidateQueries({queryKey})`
(external library, embedded per its documented semantics): marks stale every
cached query whose key begins with the given key filter; other entries are
untouched. -/
def invalidateQueries (keyFilter : List QueryKeyPart)
    (cache : List CacheEntry) : List CacheEntry :=
  cache.map fun e =>
    if keyFilter.isPrefixOf e.key then { e with stale := true } else e

/-- src/datas/demo/hooks.ts `useCreateDemo`'s `onSuccess`:
`getQueryClient().invalidateQueries({ queryKey: ['demoList'] })`. -/
def useCreateDemoOnSuccess (cache : List CacheEntry) : List CacheEntry :=
  invalidateQueries [.name "demoList"] cache

/-- A JSON value, used to state claims about parsed fixture bodies. -/
inductive Json where
  | num (n : Int)
  | str (s : String)
  | bool (b : Bool)
  | arr (items : List Json)
  | obj (fields : List (String × Json))

/-- Whether a JSON value is an object. -/
def Json.isObj : Json → Bool
  | .obj _ => true
  | _ => false

/-- The parsed body of the fixture `{code:200, message:"success",
data:[{id:1,name:"a"}]}`. -/
def demoFixtureBody : Json :=
  .obj [("code", .num 200), ("message", .str "success"),
        ("data", .arr [.obj [("id", .num 1), ("name", .str "a")]])]

/-- The `data` field of that fixture envelope: `[{id:1,name:"a"}]`. -/
def demoFixtureDataField : Json :=
  .arr [.obj [("id", .num 1), ("name", .str "a")]]

/-- Count of promise settlements (resolutions or rejections) in a trace. -/
def settleCount {T : Type} (trace : List (FetchEvent T)) : Nat :=
  (trace.filter fun e =>
    match e with
    | .resolved _ => true
    | .rejected _ => true
    | _ => false).length

/-- Count of modal-open invocations in a trace. -/
def modalCount {T : Type} (trace : List (FetchEvent T)) : Nat :=
  (trace.filter fun e =>
    match e with
    | .modalOpened _ _ _ => true
    | _ => false).length

/-- The claim's reading of "a non-empty fixture path is supplied" (stated
from the spec's words, for comparison with the source's check): `jsonMockup`
is present and not the empty string. -/
def claimNonEmptyFixtureSupplied (options : FetcherOptions) : Prop :=
  ∃ s, options.jsonMockup = some s ∧ s ≠ ""

/-- Options with `mock=true` but no fixture path at all (`jsonMockup`
left undefined). -/
def undefinedFixtureOptions : FetcherOptions :=
  { mock := some true }

section MergeLemmas

lemma mergeOptions_mock (o : FetcherOptions) :
    (mergeOptions o).mock = some (o.mock.getD true) := by
  cases h : o.mock <;> simp [mergeOptions, jsSpread, defaultOptions, h]

lemma mergeOptions_jsonMockup (o : FetcherOptions) :
    (mergeOptions o).jsonMockup = some (o.jsonMockup.getD "") := by
  cases h : o.jsonMockup <;> simp [mergeOptions, jsSpread, defaultOptions, h]

lemma mergeOptions_delay (o : FetcherOptions) :
    (mergeOptions o).delay = some (o.delay.getD 0) := by
  cases h : o.delay <;> simp [mergeOptions, jsSpread, defaultOptions, h]

lemma mergeOptions_timeout (o : FetcherOptions) :
    (mergeOptions o).timeout = some (o.timeout.getD 0) := by
  cases h : o.timeout <;> simp [mergeOptions, jsSpread, defaultOptions, h]

lemma mergeOptions_showErrorDialog (o : FetcherOptions) :
    (mergeOptions o).showErrorDialog = some (o.showErrorDialog.getD true) := by
  cases h : o.showErrorDialog <;> simp [mergeOptions, jsSpread, defaultOptions, h]

lemma mergeOptions_url (o : FetcherOptions) :
    (mergeOptions o).url = o.url := by
  cases h : o.url <;> simp [mergeOptions, jsSpread, defaultOptions, h]

lemma mergeOptions_method (o : FetcherOptions) :
    (mergeOptions o).method = o.method := by
  cases h : o.method <;> simp [mergeOptions, jsSpread, defaultOptions, h]

lemma mergeOptions_params (o : FetcherOptions) :
    (mergeOptions o).params = o.params := by
  cases h : o.params <;> simp [mergeOptions, jsSpread, defaultOptions, h]

lemma mergeOptions_headers (o : FetcherOptions) :
    (mergeOptions o).headers = o.headers := by
  cases h : o.headers <;> simp [mergeOptions, jsSpread, defaultOptions, h]

end MergeLemmas

/-- C3: the claim says `shouldUseMockup` is false when `jsonMockup` is
absent/undefined; the source only short-circuits on the literal empty
string, so for `{mock: true, jsonMockup: undefined}` in a development build
it returns true, where the claim demands false. -/
theorem c3_counterexample :
    shouldUseMockup true undefinedFixtureOptions = true ∧
    ¬ claimNonEmptyFixtureSupplied undefinedFixtureOptions := by
  constructor
  · rfl
  · rintro ⟨s, hs, -⟩
    simp [undefinedFixtureOptions, claimNonEmptyFixtureSupplied] at hs

/-- C3 (amended): `shouldUseMockup(options)` is true exactly when the build
mode is development, `options.mock` is true, and `options.jsonMockup` is not
the literal empty string; an absent/undefined `jsonMockup` (with `mock=true`
in development) therefore yields true, the strict `=== ''` check not firing
on undefined.  (Merged options inside `createFetcher` always carry the
default `jsonMockup=''`, so the absent case cannot reach the merged path.) -/
theorem c3_shouldUseMockup_characterization (isDev : Bool)
    (o : FetcherOptions) :
    shouldUseMockup isDev o = true ↔
      isDev = true ∧ o.mock = some true ∧ o.jsonMockup ≠ some "" := by
  cases isDev <;> rcases hm : o.mock with _ | b
  · simp [shouldUseMockup, jsTruthy, hm]
  · simp [shouldUseMockup, jsTruthy, hm]
  · simp [shouldUseMockup, jsTruthy, hm]
  · cases b <;> by_cases hj : o.jsonMockup = some "" <;>
      simp [shouldUseMockup, jsTruthy, hm, hj]

/-- C3 witness: the merged demo-list options (development build) do use the
mockup, via the amended characterization. -/
theorem c3_witness :
    shouldUseMockup true (mergeOptions (fetchDemoListOptions "limit=10")) = true :=
  (c3_shouldUseMockup_characterization true _).mpr
    ⟨rfl, by decide, by decide⟩

/-- C7: the duration handed to the scheduler is the raw merged delay —
`fetchOptions.delay || 0 * 1000` parses as `fetchOptions.delay || (0*1000)`,
so a truthy delay is used as-is (never multiplied by 1000) and a zero delay
becomes 0. -/
theorem c7_delay_used_raw (o : FetcherOptions) (d : Nat)
    (hd : (mergeOptions o).delay = some d) :
    scheduledDelay o = d ∧ (d ≠ 0 → scheduledDelay o ≠ 1000 * d) := by
  have hs : scheduledDelay o = d := by
    unfold scheduledDelay jsOrNatOpt
    rw [hd]
    by_cases h0 : d = 0
    · simp [h0]
    · simp [h0]
  refine ⟨hs, fun hne => ?_⟩
  rw [hs]
  omega

/-- C7 witness: the demo-list service's `delay: 3000` is scheduled as 3000,
not 3000000. -/
theorem c7_witness :
    scheduledDelay (fetchDemoListOptions "limit=10") = 3000 ∧
    (3000 ≠ 0 →
      scheduledDelay (fetchDemoListOptions "limit=10") ≠ 1000 * 3000) :=
  c7_delay_used_raw (fetchDemoListOptions "limit=10") 3000 rfl

/-- C8: `{...defaultOptions, ...options}` merges field-by-field with the
caller's fields taking precedence; absent fields fall back to the documented
defaults mock=true, jsonMockup='', delay=0, timeout=0, showErrorDialog=true,
and fields without defaults pass through unchanged. -/
theorem c8_merge_defaults (o : FetcherOptions) :
    (mergeOptions o).mock = some (o.mock.getD true) ∧
    (mergeOptions o).jsonMockup = some (o.jsonMockup.getD "") ∧
    (mergeOptions o).delay = some (o.delay.getD 0) ∧
    (mergeOptions o).timeout = some (o.timeout.getD 0) ∧
    (mergeOptions o).showErrorDialog = some (o.showErrorDialog.getD true) ∧
    (mergeOptions o).url = o.url ∧
    (mergeOptions o).method = o.method ∧
    (mergeOptions o).params = o.params ∧
    (mergeOptions o).headers = o.headers :=
  ⟨mergeOptions_mock o, mergeOptions_jsonMockup o, mergeOptions_delay o,
   mergeOptions_timeout o, mergeOptions_showErrorDialog o, mergeOptions_url o,
   mergeOptions_method o, mergeOptions_params o, mergeOptions_headers o⟩

/-- C1: the claim says a mock dispatch resolves with the `data` field of the
envelope only; but both branches of `callFetch` resolve with axios's
`response.data`, the whole parsed body.  For the fixture
`{code:200, message:"success", data:[{id:1,name:"a"}]}` (mock mode holds for
the demo-list options in a development build), dispatch resolves with the
whole envelope, which is not `[{id:1,name:"a"}]`. -/
theorem c1_counterexample :
    shouldUseMockup true (mergeOptions (fetchDemoListOptions "limit=10")) = true ∧
    createFetcherRun true (fetchDemoListOptions "limit=10")
        (.success demoFixtureBody) = .completed [.resolved demoFixtureBody] ∧
    demoFixtureBody ≠ demoFixtureDataField := by
  refine ⟨rfl, rfl, fun h => ?_⟩
  have hobj := congrArg Json.isObj h
  simp [demoFixtureBody, demoFixtureDataField, Json.isObj] at hobj

/-- C1 (amended): a successful dispatch — mock or live — resolves with the
whole parsed body (the `BaseResponse` envelope for envelope-shaped
fixtures); the envelope's `data` field is only extracted afterwards by
`useDemoList`'s `select`, so hook consumers see the `data` payload. -/
theorem c1_resolves_with_whole_body :
    (∀ (T : Type) (isDev : Bool) (o : FetcherOptions) (b : T),
      createFetcherRun isDev o (.success b) = .completed [.resolved b]) ∧
    (∀ (T : Type) (r : BaseResponse T), useDemoListSelect r = r.data) :=
  ⟨fun _ _ _ _ => rfl, fun _ _ => rfl⟩

/-- A live 401 failure whose response JSON body is the literal `null`. -/
def err401null : FetchError :=
  .axiosError (some ⟨401, some "Unauthorized", .null⟩)
    "Request failed with status code 401"

/-- A live 500 failure whose response JSON body is the literal `null`. -/
def err500null : FetchError :=
  .axiosError (some ⟨500, some "Internal Server Error", .null⟩)
    "Request failed with status code 500"

/-- C2: the claim says every 401 failure removes the cookie, navigates to
'/login' and rejects; but for a 401 whose parsed body is JSON `null`, the
catch block throws at `error.response?.data.message` before the 401
handling, so the run crashes and none of the three claimed actions occur. -/
theorem c2_counterexample :
    createFetcherRun (T := Json) true (fetchDemoListOptions "limit=10")
        (.failure err401null) = .crashed ∧
    FetchEvent.cookieRemoved "SID" ∉ runEvents (createFetcherRun (T := Json)
      true (fetchDemoListOptions "limit=10") (.failure err401null)) ∧
    FetchEvent.navigated "/login" ∉ runEvents (createFetcherRun (T := Json)
      true (fetchDemoListOptions "limit=10") (.failure err401null)) ∧
    ∀ se : ServiceError, FetchEvent.rejected se ∉
      runEvents (createFetcherRun (T := Json) true
        (fetchDemoListOptions "limit=10") (.failure err401null)) := by
  refine ⟨rfl, ?_, ?_, fun se => ?_⟩ <;>
    simp [runEvents, createFetcherRun, callFetchRun, err401null,
      normalizeError, jsMessageAccess]

/-- C2 (amended): for every dispatch failing with HTTP 401 whose response
body's `message` access does not throw (any object or primitive body —
i.e. not JSON `null`), three things occur regardless of showErrorDialog:
the 'SID' cookie is removed, a navigation to '/login' is issued, and the
promise rejects with the normalized ServiceError as the final event.  When
the 401 body is JSON `null`, the catch block throws and none of the three
occur.  For failures with any status other than 401, no cookie is removed
and no navigation occurs — on every path, the throwing one included. -/
theorem c2_unauthorized_handling :
    (∀ (T : Type) (isDev : Bool) (o : FetcherOptions) (r : ErrResponse)
        (m : String) (bm : Option String),
      r.status = 401 → jsMessageAccess r.data = .ok bm →
      ∃ tr : List (FetchEvent T),
        createFetcherRun (T := T) isDev o
          (.failure (.axiosError (some r) m)) = .completed tr ∧
        FetchEvent.cookieRemoved "SID" ∈ tr ∧
        FetchEvent.navigated "/login" ∈ tr ∧
        tr.getLast? = some (.rejected
          { title := jsCoalesce r.statusText "Error"
            message := jsOrString bm m })) ∧
    (∀ (T : Type) (isDev : Bool) (o : FetcherOptions) (r : ErrResponse)
        (m : String), r.status ≠ 401 → ∀ (name href : String),
      FetchEvent.cookieRemoved name ∉
        runEvents (createFetcherRun (T := T) isDev o
          (.failure (.axiosError (some r) m))) ∧
      FetchEvent.navigated href ∉
        runEvents (createFetcherRun (T := T) isDev o
          (.failure (.axiosError (some r) m)))) := by
  constructor
  · intro T isDev o r m bm hr hb
    have hn : normalizeError (.axiosError (some r) m) =
        .ok { title := jsCoalesce r.statusText "Error"
              message := jsOrString bm m } := by
      simp [normalizeError, hb]
    by_cases hs : jsTruthy (mergeOptions o).showErrorDialog
    · refine ⟨[.cookieRemoved "SID", .navigated "/login",
        .modalOpened MODAL_APPLICATION_ERROR (jsCoalesce r.statusText "Error")
          (jsOrString bm m),
        .rejected { title := jsCoalesce r.statusText "Error"
                    message := jsOrString bm m }], ?_, ?_, ?_, rfl⟩
      · simp [createFetcherRun, callFetchRun, hn, isUnauthorized, hr, hs]
      · simp
      · simp
    · refine ⟨[.cookieRemoved "SID", .navigated "/login",
        .rejected { title := jsCoalesce r.statusText "Error"
                    message := jsOrString bm m }], ?_, ?_, ?_, rfl⟩
      · simp [createFetcherRun, callFetchRun, hn, isUnauthorized, hr, hs]
      · simp
      · simp
  · intro T isDev o r m hr name href
    cases hb : jsMessageAccess r.data with
    | ok bm =>
        have hn : normalizeError (.axiosError (some r) m) =
            .ok { title := jsCoalesce r.statusText "Error"
                  message := jsOrString bm m } := by
          simp [normalizeError, hb]
        by_cases hs : jsTruthy (mergeOptions o).showErrorDialog <;>
          constructor <;>
          simp [runEvents, createFetcherRun, callFetchRun, hn,
            isUnauthorized, hr, hs]
    | error u =>
        have hn : normalizeError (.axiosError (some r) m) = .error u := by
          simp [normalizeError, hb]
        constructor <;>
          simp [runEvents, createFetcherRun, callFetchRun, hn]

/-- C2 witness: a concrete 401 failure with an object body (demo-list
options, dialog defaulted true) removes the cookie; a concrete 500 failure
does not. -/
theorem c2_witness :
    (FetchEvent.cookieRemoved "SID" ∈
      runEvents (createFetcherRun (T := Json) true
        (fetchDemoListOptions "limit=10")
        (.failure (.axiosError (some ⟨401, some "Unauthorized", .obj none⟩)
          "Request failed with status code 401")))) ∧
    (FetchEvent.cookieRemoved "SID" ∉
      runEvents (createFetcherRun (T := Json) true
        (fetchDemoListOptions "limit=10")
        (.failure (.axiosError
          (some ⟨500, some "Internal Server Error", .obj none⟩)
          "Request failed with status code 500")))) := by
  constructor
  · obtain ⟨tr, hc, hm, -, -⟩ := c2_unauthorized_handling.1 Json true
      (fetchDemoListOptions "limit=10") ⟨401, some "Unauthorized", .obj none⟩
      "Request failed with status code 401" none rfl rfl
    rw [hc]
    simpa [runEvents] using hm
  · exact (c2_unauthorized_handling.2 Json true (fetchDemoListOptions "limit=10")
      ⟨500, some "Internal Server Error", .obj none⟩
      "Request failed with status code 500" (by decide) "SID" "/login").1

/-- C4: the claim says no failure path leaves the promise unsettled; but a
live failure whose response JSON body is `null` makes the catch block's
`error.response?.data.message` throw a TypeError (the optional chain guards
only `response`), the exception escapes the async `callFetch`, and the
promise never settles: the run crashes with zero settlement events.  This
contradicts the spec's own propagation policy, so it is a bug in the code,
not in the claim. -/
theorem c4_unsettled_on_null_body :
    createFetcherRun (T := Json) true (fetchDemoListOptions "limit=10")
        (.failure err500null) = .crashed ∧
    settleCount (runEvents (createFetcherRun (T := Json) true
      (fetchDemoListOptions "limit=10") (.failure err500null))) = 0 :=
  ⟨rfl, rfl⟩

/-- A live failure with HTTP 500, status text present, and body
`{message:"boom"}`. -/
def err500 : FetchError :=
  .axiosError (some ⟨500, some "Internal Server Error", .obj (some "boom")⟩)
    "Request failed with status code 500"

/-- C5: whenever normalization completes (the body's `message` access does
not throw), the rejected ServiceError's title is the response's status text
when available, else the fallback 'Error'; its message is the body's truthy
`message` field when present, else the transport error's message, with the
generic localized fallback reserved for non-transport causes; an HTTP 500
with body `{message:"boom"}` rejects with the status text and "boom". -/
theorem c5_title_message_extraction :
    (∀ (r : ErrResponse) (m : String) (bm : Option String),
      jsMessageAccess r.data = .ok bm →
      normalizeError (.axiosError (some r) m) =
        .ok { title := jsCoalesce r.statusText "Error"
              message := jsOrString bm m }) ∧
    (∀ (r : ErrResponse) (m : String) (se : ServiceError),
      normalizeError (.axiosError (some r) m) = .ok se →
      (∀ t, r.statusText = some t → se.title = t) ∧
      (r.statusText = none → se.title = "Error") ∧
      (∀ bm, r.data = .obj (some bm) → bm ≠ "" → se.message = bm) ∧
      ((r.data = .obj none ∨ r.data = .obj (some "") ∨ r.data = .prim) →
        se.message = m)) ∧
    (∀ m : String, normalizeError (.axiosError none m) =
      .ok { title := "Error", message := m }) ∧
    normalizeError .otherError =
      .ok { title := "Error", message := fallbackMessage } ∧
    (runEvents (createFetcherRun (T := Json) true
        (fetchDemoListOptions "limit=10") (.failure err500))).getLast? =
      some (.rejected { title := "Internal Server Error", message := "boom" }) := by
  refine ⟨?_, ?_, fun m => rfl, rfl, rfl⟩
  · intro r m bm hb
    simp [normalizeError, hb]
  · intro r m se hn
    cases hd : jsMessageAccess r.data with
    | error u =>
        rw [show normalizeError (.axiosError (some r) m) = .error u by
          simp [normalizeError, hd]] at hn
        exact Except.noConfusion hn
    | ok bmv =>
        rw [show normalizeError (.axiosError (some r) m) =
            .ok { title := jsCoalesce r.statusText "Error"
                  message := jsOrString bmv m } by
          simp [normalizeError, hd]] at hn
        have he := (Except.ok.inj hn).symm
        subst he
        refine ⟨?_, ?_, ?_, ?_⟩
        · intro t ht
          simp [jsCoalesce, ht]
        · intro ht
          simp [jsCoalesce, ht]
        · intro bm hbm hne
          rw [hbm] at hd
          have hv : bmv = some bm := (Except.ok.inj hd).symm
          simp [hv, jsOrString, hne]
        · rintro (hbm | hbm | hbm) <;>
            (rw [hbm] at hd
             have hv := Except.ok.inj hd
             simp [← hv, jsOrString])

/-- C5 witness: the 500/boom normalization at its concrete input. -/
theorem c5_witness :
    ∃ se : ServiceError,
      normalizeError (.axiosError
        (some ⟨500, some "Internal Server Error", .obj (some "boom")⟩)
        "Request failed with status code 500") = .ok se ∧
      se.title = "Internal Server Error" ∧ se.message = "boom" := by
  have hn : normalizeError (.axiosError
      (some ⟨500, some "Internal Server Error", .obj (some "boom")⟩)
      "Request failed with status code 500") =
      .ok { title := "Internal Server Error", message := "boom" } := rfl
  obtain ⟨-, h2, -, -, -⟩ := c5_title_message_extraction
  obtain ⟨ht, -, hm, -⟩ := h2 ⟨500, some "Internal Server Error", .obj (some "boom")⟩
    "Request failed with status code 500"
    { title := "Internal Server Error", message := "boom" } hn
  exact ⟨_, hn, ht "Internal Server Error" rfl, hm "boom" rfl (by decide)⟩

/-- C6: the claim says every failed dispatch with the dialog enabled opens
the modal exactly once before the rejection; but for a dialog-enabled
failure whose parsed body is JSON `null` (showErrorDialog defaulted true
for the demo-list options), the catch block throws before reaching the
modal call: zero open-dialog invocations occur and the promise never
rejects. -/
theorem c6_counterexample :
    (mergeOptions (fetchDemoListOptions "limit=10")).showErrorDialog =
      some true ∧
    modalCount (runEvents (createFetcherRun (T := Json) true
      (fetchDemoListOptions "limit=10") (.failure err500null))) = 0 ∧
    ∀ se : ServiceError, FetchEvent.rejected se ∉
      runEvents (createFetcherRun (T := Json) true
        (fetchDemoListOptions "limit=10") (.failure err500null)) := by
  refine ⟨rfl, rfl, fun se => ?_⟩
  simp [runEvents, createFetcherRun, callFetchRun, err500null,
    normalizeError, jsMessageAccess]

/-- C6 (amended): when the merged showErrorDialog is true and the error's
normalization completes (the body's `message` access does not throw), a
failed dispatch opens the error modal exactly once, under the registry key,
with the same normalized title and message as the rejection value, and
before the rejection (the trace ends with the modal-open followed by the
rejection); when the normalization throws, no modal opens and nothing
rejects.  When showErrorDialog is false, no modal-open occurs on any
failure path, the throwing one included. -/
theorem c6_dialog_gating (T : Type) (isDev : Bool) (o : FetcherOptions)
    (e : FetchError) :
    ((mergeOptions o).showErrorDialog = some true →
      ∀ se, normalizeError e = .ok se →
      modalCount (runEvents (createFetcherRun (T := T) isDev o
        (.failure e))) = 1 ∧
      ∃ pre, runEvents (createFetcherRun (T := T) isDev o (.failure e)) =
          pre ++ [.modalOpened MODAL_APPLICATION_ERROR se.title se.message,
                  .rejected se] ∧
        modalCount pre = 0) ∧
    ((mergeOptions o).showErrorDialog = some false →
      modalCount (runEvents (createFetcherRun (T := T) isDev o
        (.failure e))) = 0) := by
  constructor
  · intro hs se hn
    have hst : jsTruthy (mergeOptions o).showErrorDialog = true := by
      rw [hs]; rfl
    by_cases hu : isUnauthorized e
    · refine ⟨?_, [FetchEvent.cookieRemoved "SID", FetchEvent.navigated "/login"],
        ?_, rfl⟩
      · simp [runEvents, createFetcherRun, callFetchRun, hn, hu, hst, modalCount]
      · simp [runEvents, createFetcherRun, callFetchRun, hn, hu, hst]
    · refine ⟨?_, [], ?_, rfl⟩
      · simp [runEvents, createFetcherRun, callFetchRun, hn, hu, hst, modalCount]
      · simp [runEvents, createFetcherRun, callFetchRun, hn, hu, hst]
  · intro hs
    have hst : jsTruthy (mergeOptions o).showErrorDialog = false := by
      rw [hs]; rfl
    cases hn : normalizeError e with
    | ok se =>
        by_cases hu : isUnauthorized e <;>
          simp [runEvents, createFetcherRun, callFetchRun, hn, hu, hst,
            modalCount]
    | error u =>
        simp [runEvents, createFetcherRun, callFetchRun, hn, modalCount]

/-- C6 witness: with the demo-list options (dialog defaulted on) a
non-throwing failure opens the modal once; with showErrorDialog=false it
opens none. -/
theorem c6_witness :
    modalCount (runEvents (createFetcherRun (T := Json) true
      (fetchDemoListOptions "limit=10") (.failure .otherError))) = 1 ∧
    modalCount (runEvents (createFetcherRun (T := Json) true
      { fetchDemoListOptions "limit=10" with showErrorDialog := some false }
      (.failure .otherError))) = 0 :=
  ⟨((c6_dialog_gating Json true (fetchDemoListOptions "limit=10")
      .otherError).1 rfl { title := "Error", message := fallbackMessage } rfl).1,
   (c6_dialog_gating Json true
      { fetchDemoListOptions "limit=10" with showErrorDialog := some false }
      .otherError).2 rfl⟩

/-- The claim-level invalidation over one cache entry: mark it stale exactly
when its key's resource name (first key component) is "demoList". -/
def staleByDemoMutation (e : CacheEntry) : CacheEntry :=
  if e.key.head? = some (.name "demoList") then { e with stale := true } else e

lemma invalidate_demoList_entry (e : CacheEntry) :
    (if [QueryKeyPart.name "demoList"].isPrefixOf e.key then
      { e with stale := true } else e) = staleByDemoMutation e := by
  rcases e with ⟨key, st⟩
  rcases key with _ | ⟨a, t⟩
  · rfl
  · by_cases ha : a = QueryKeyPart.name "demoList"
    · subst ha
      simp [staleByDemoMutation, List.isPrefixOf]
    · have hb : (QueryKeyPart.name "demoList" == a) = false := by
        simp only [beq_eq_false_iff_ne, ne_eq]
        exact fun h => ha h.symm
      simp [staleByDemoMutation, List.isPrefixOf, hb, ha]

/-- C9: after `useCreateDemo`'s success handler, every cache entry whose
key's resource name is "demoList" is marked stale (including each
`['demoList', params]` read key), and every entry keyed by another resource
name is unchanged. -/
theorem c9_mutation_invalidation :
    (∀ cache : List CacheEntry,
      useCreateDemoOnSuccess cache = cache.map staleByDemoMutation) ∧
    (∀ p : RequestDemoList,
      (staleByDemoMutation ⟨useDemoListQueryKey p, false⟩).stale = true) ∧
    (∀ e : CacheEntry, e.key.head? ≠ some (.name "demoList") →
      staleByDemoMutation e = e) := by
  refine ⟨?_, ?_, ?_⟩
  · intro cache
    simp only [useCreateDemoOnSuccess, invalidateQueries]
    exact List.map_congr_left fun a _ => invalidate_demoList_entry a
  · intro p
    simp [staleByDemoMutation, useDemoListQueryKey]
  · intro e h
    simp [staleByDemoMutation, h]

/-- C9 witness: a concrete cache with one demo-list read and one
other-resource read — the first is marked stale, the second untouched. -/
theorem c9_witness :
    useCreateDemoOnSuccess
        [⟨useDemoListQueryKey ⟨10⟩, false⟩, ⟨[.name "other"], false⟩] =
      [⟨useDemoListQueryKey ⟨10⟩, true⟩, ⟨[.name "other"], false⟩] ∧
    staleByDemoMutation ⟨[.name "other"], false⟩ = ⟨[.name "other"], false⟩ := by
  constructor
  · rw [c9_mutation_invalidation.1]
    decide
  · exact c9_mutation_invalidation.2.2 ⟨[.name "other"], false⟩ (by decide)

/-- C10: when the merged options select the mock path, the dispatch issues a
GET whose URL is exactly the merged jsonMockup string; the caller's url,
method, params and extra headers are ignored on this path; and the request
goes through the shared client, so it carries the construction-time
`Authorization: Bearer <SID>` header. -/
theorem c10_mock_request_shape (isDev : Bool) (o : FetcherOptions)
    (h : shouldUseMockup isDev (mergeOptions o) = true) :
    issuedRequest isDev o = .get ((mergeOptions o).jsonMockup.getD "") ∧
    (∀ u me p hd, issuedRequest isDev
        { o with url := u, method := me, params := p, headers := hd } =
      issuedRequest isDev o) ∧
    (∀ apiUrl sid, sentAuthorizationHeader (httpClient apiUrl sid)
        (issuedRequest isDev o) = "Bearer " ++ jsTemplate sid) := by
  have key : ∀ o' : FetcherOptions,
      shouldUseMockup isDev (mergeOptions o') = true →
      issuedRequest isDev o' = .get ((mergeOptions o').jsonMockup.getD "") := by
    intro o' h'
    simp only [issuedRequest]
    rw [if_pos h', mergeOptions_jsonMockup]
    rfl
  have h1 := key o h
  refine ⟨h1, ?_, ?_⟩
  · intro u me p hd
    have h' : shouldUseMockup isDev (mergeOptions { o with url := u, method := me, params := p, headers := hd }) = true := h
    rw [key _ h', h1, mergeOptions_jsonMockup, mergeOptions_jsonMockup]
  · intro apiUrl sid
    rw [h1]
    rfl

/-- C10 witness: the demo-list options in a development build issue a GET to
the fixture path, carrying the client's bearer header. -/
theorem c10_witness :
    issuedRequest true (fetchDemoListOptions "limit=10") =
      .get "/apiMockup/demo/list.json" ∧
    sentAuthorizationHeader (httpClient (some "https://api.example.com")
        (some "tok"))
      (issuedRequest true (fetchDemoListOptions "limit=10")) = "Bearer tok" := by
  obtain ⟨h1, -, h3⟩ := c10_mock_request_shape true
    (fetchDemoListOptions "limit=10") rfl
  exact ⟨h1, h3 (some "https://api.example.com") (some "tok")⟩

end TemplateTest
